import Mathlib

/-!
Shallow embedding of the Storage & Vault Engine of octopus-photos
(src/app/services/{storage_service,photos_service,vault_service,metadata_service}.py,
src/app/controllers/{storage_controller,photo_controller}.py).

Modelling conventions, stated once:

* Identifiers (user ids, photo ids) are `Nat`, standing for UUIDs.  The helper
  `_validate_uudi` that all controllers call is referenced throughout the
  repository but defined nowhere under the sources; its evident role (compare
  `StorageService.get_user_storage`) is string→UUID normalisation, so it is
  modelled as the identity and not given a definition of its own.
* Byte strings are `List Nat`.  A 16-byte salt and a 12-byte nonce are each a
  single `Nat`, standing for the whole random byte string drawn by
  `os.urandom`; randomness is an explicit entropy stream `Nat → Nat` whose
  successive positions are the successive `os.urandom` calls.
* PBKDF2 key derivation is idealised as the injective pairing
  `(password, salt)`; AES-GCM is idealised authenticated encryption: a
  ciphertext is an abstract token recording the key and nonce it was produced
  under, and decryption succeeds exactly when the same key and nonce-prefix
  are presented, otherwise it fails authentication (the `cryptography`
  library raises, which `_decrypt_data` turns into `PermissionDenied`).
* The filesystem is an association list from structured paths to file
  contents; SQLAlchemy tables (photos, user_storages) are association lists
  keyed by id.  Directories always exist (`init_user_storage` /
  `prepare_new_photo_path` create them with `mkdir(parents=True)`).
* A SQLAlchemy commit that may fail (`_commit_or_rollback`) is modelled by an
  explicit boolean outcome passed in where the code branches on it; on the
  failed outcome the table is unchanged (rollback).
* Operations are pure state transformers `State → (State × Except Err α)` (or
  `× Bool` where the code returns a bool); an error outcome still carries the
  state so that compensation effects performed before raising are visible.
-/

/-- Error taxonomy of `src/app/errors/base.py` (note that the repository has
no `InvariantViolation` class), plus `typeError` standing for the Python
built-in `TypeError` raised where code calls a helper with a missing
required argument. -/
inductive Err
  | validationError
  | storageError
  | resourceNotFound
  | permissionDenied
  | octopusError
  | typeError
deriving DecidableEq, Repr

/-- Logical buckets of the per-owner directory tree created by
`StorageService.init_user_storage`: `photos/`, `thumbnails/`,
`vault/photos/`, `vault/thumbnails/`. -/
inductive Bucket
  | photos
  | thumbnails
  | vaultPhotos
  | vaultThumbnails
deriving DecidableEq, Repr

/-- A filesystem path as produced by `StorageService.get_user_path`:
base path / user id / bucket / file name. -/
structure FPath where
  userId : Nat
  bucket : Bucket
  name : String
deriving DecidableEq, Repr

abbrev Bytes := List Nat

/-- Idealised AES-GCM ciphertext-with-tag: records the key and nonce used at
encryption time together with the plaintext; authentication makes these
recoverable only by decrypting with the matching key. -/
structure Ctext where
  key : String × Nat
  nonce : Nat
  data : Bytes
deriving DecidableEq, Repr

/-- Contents of a file on disk: either plaintext bytes, or a vault blob laid
out as `nonce ‖ ciphertext_with_tag` (`VaultService` comment: "El blob final
contiene el nonce concatenado"). -/
inductive FileData
  | plain (bytes : Bytes)
  | vaultBlob (noncePrefix : Nat) (ct : Ctext)
deriving DecidableEq, Repr

/-- On-disk byte size of a file, as `Path.stat().st_size` reports it: a vault
blob is 12 nonce bytes plus the ciphertext (plaintext length + 16 tag bytes). -/
def fileSize : FileData → Nat
  | .plain b => b.length
  | .vaultBlob _ ct => 12 + ct.data.length + 16

/-- A row of the `photos` table.  The fields `id`, `user_id`, `storage_path`,
`file_name` are declared in `src/app/database/models/photos_model.py`; the
metadata columns are collapsed into one opaque optional field.

Modelled from the spec: the columns `is_deleted`, `deleted_at`,
`is_encrypted`, `encryption_salt` are assigned and read by
`PhotoController.trash_photo` / `restore_photo` / `mark_as_encrypted` and by
`VaultService`, and appear in `PhotoResponse`, but their declarations are not
in `photos_model.py` under the sources; they are modelled after spec §3
(Media Record: soft-delete flag, deleted-at timestamp, encrypted flag,
encryption salt present iff encrypted).  The salt value is taken to round-trip
through the record store unchanged. -/
structure Photo where
  userId : Nat
  storagePath : FPath
  fileName : String
  isDeleted : Bool
  deletedAt : Option Nat
  isEncrypted : Bool
  encryptionSalt : Option Nat
  meta : Option Nat
deriving DecidableEq, Repr

/-- A row of the `user_storages` table
(`src/app/database/models/storage_model.py`): the two quota counters.  They
are plain `Integer`/`BigInteger` columns with no CHECK constraint, so the
model uses `Int`. -/
structure LedgerRec where
  countFiles : Int
  storageBytesSize : Int
deriving DecidableEq, Repr

/-- The engine state: the filesystem plus the two tables. -/
structure EngineState where
  disk : List (FPath × FileData)
  photos : List (Nat × Photo)
  ledger : List (Nat × LedgerRec)
deriving DecidableEq, Repr

/-! ### Association-list primitives (rows keyed by unique ids/paths) -/

def alookup {α β : Type} [DecidableEq α] : List (α × β) → α → Option β
  | [], _ => none
  | (k, v) :: t, k' => if k = k' then some v else alookup t k'

/-- Insert-or-replace, the effect of writing a file / committing a row. -/
def aset {α β : Type} [DecidableEq α] : List (α × β) → α → β → List (α × β)
  | [], k, v => [(k, v)]
  | (k', v') :: t, k, v => if k' = k then (k, v) :: t else (k', v') :: aset t k v

/-- Remove every binding of a key: unlinking a file / deleting a row. -/
def aremove {α β : Type} [DecidableEq α] : List (α × β) → α → List (α × β)
  | [], _ => []
  | (k', v') :: t, k => if k' = k then aremove t k else (k', v') :: aremove t k

/-! ### Path helpers -/

/-- Helper for `pathlib.Path(...).suffix`: the tail of the character list
from its last dot onward, `none` when there is no dot.  Structural recursion
so that concrete runs evaluate inside proofs. -/
def extFromLastDot : List Char → Option (List Char)
  | [] => none
  | c :: t =>
      match extFromLastDot t with
      | some suf => some suf
      | none => if c = '.' then some (c :: t) else none

/-- `pathlib.Path(filename).suffix.lower()` for ordinary names: the final
dot-extension including the dot, lowercased, `""` when the name has no dot. -/
def suffixLower (filename : String) : String :=
  match extFromLastDot filename.data with
  | some suf => ⟨suf.map Char.toLower⟩
  | none => ""

/-- Extensions accepted by `PhotosService.upload_photo`'s allow-list. -/
def uploadAllowedExts : List String := [".jpg", ".jpeg", ".png", ".webp"]

/-- Extensions counted by `sync_db_stats_with_disk`, built from the
`FormatImage` enum (`JPG, JPEG, PNG, WEBP, GIF`) lowercased with a dot. -/
def validExts : List String := [".jpg", ".jpeg", ".png", ".webp", ".gif"]

/-- Vault blob name for the original: `f"{photo_id}.vault"`. -/
def vaultName (photoId : Nat) : String := toString photoId ++ ".vault"

/-- Vault blob name for the thumbnail: `f"{photo_id}.tmb.vault"`. -/
def vaultThumbName (photoId : Nat) : String := toString photoId ++ ".tmb.vault"

/-! ### Quota Ledger (`StorageController`, `src/app/controllers/storage_controller.py`) -/

/-- `StorageController.update_usage`: looks the owner's row up, adds both
signed deltas to the stored counters and commits; returns `False` when no row
exists or the commit fails (rollback leaves the row unchanged).  There is no
negativity check of any kind. -/
def update_usage (ledger : List (Nat × LedgerRec)) (userId : Nat)
    (sizeDelta filesDelta : Int) (commitOk : Bool) :
    List (Nat × LedgerRec) × Bool :=
  match alookup ledger userId with
  | some r =>
      if commitOk then
        (aset ledger userId
          { countFiles := r.countFiles + filesDelta,
            storageBytesSize := r.storageBytesSize + sizeDelta }, true)
      else (ledger, false)
  | none => (ledger, false)

/-- `StorageService.register_file_upload`: `update_usage(+size, +1)`. -/
def register_file_upload (ledger : List (Nat × LedgerRec)) (userId : Nat)
    (fileSizeBytes : Nat) (commitOk : Bool) : List (Nat × LedgerRec) × Bool :=
  update_usage ledger userId (Int.ofNat fileSizeBytes) 1 commitOk

/-- `StorageService.register_file_deletion`: `update_usage(-size, -1)`. -/
def register_file_deletion (ledger : List (Nat × LedgerRec)) (userId : Nat)
    (fileSizeBytes : Nat) (commitOk : Bool) : List (Nat × LedgerRec) × Bool :=
  update_usage ledger userId (-(Int.ofNat fileSizeBytes)) (-1) commitOk

/-! ### Physical storage (`StorageService`, `src/app/services/storage_service.py`) -/

/-- `StorageService.delete_photo_file`: raises `ResourceNotFoundError` when
the file is absent; otherwise stats it, unlinks it, and applies the `-size,
-1` ledger delta.  When the ledger update fails it only logs ("Archivo
borrado pero falló actualización de cuota…") and still returns `True`. -/
def delete_photo_file (s : EngineState) (userId : Nat) (filePath : FPath)
    (ledgerCommitOk : Bool) : EngineState × Except Err Bool :=
  match alookup s.disk filePath with
  | none => (s, .error .resourceNotFound)
  | some content =>
      let disk' := aremove s.disk filePath
      let res := register_file_deletion s.ledger userId (fileSize content) ledgerCommitOk
      ({ s with disk := disk', ledger := res.1 }, .ok true)

/-- `StorageService.save_photo_stream`: writes the stream to a fresh name in
the owner's `photos/` bucket (`prepare_new_photo_path`; the collision-free
uuid4-based name is the explicit `freshName` argument), stats the written
file, and applies the `+size, +1` ledger delta; when the delta fails it
unlinks the file again and raises `StorageError`.  A disk-level write failure
(`diskWriteOk = false`) raises `StorageError` leaving no partial file (the
`except` branch unlinks it). -/
def save_photo_stream (s : EngineState) (userId : Nat) (stream : Bytes)
    (freshName : String) (diskWriteOk ledgerCommitOk : Bool) :
    EngineState × Except Err FPath :=
  let target : FPath := ⟨userId, .photos, freshName⟩
  if diskWriteOk then
    let disk' := aset s.disk target (.plain stream)
    let sz := stream.length
    let res := register_file_upload s.ledger userId sz ledgerCommitOk
    if res.2 then
      ({ s with disk := disk', ledger := res.1 }, .ok target)
    else
      ({ s with disk := aremove disk' target, ledger := res.1 }, .error .storageError)
  else (s, .error .storageError)

/-- `PhotosService._generate_thumbnail` re-encodes a bounded-box JPEG copy
with PIL; the image transcoding itself is outside the embedding (the claims
depend only on the thumbnail's existence), so the thumbnail contents are kept
abstract as the original bytes. -/
def thumbnailOf (bytes : Bytes) : Bytes := bytes

/-- `StorageService.sync_db_stats_with_disk`: lists the files of the owner's
`photos/` bucket whose suffix is in `validExts`, sums their sizes and counts
them — and then hands the scanned totals to `update_usage`, i.e. applies them
as *deltas* on top of the stored counters (its own comment concedes it:
"Aquí el controller necesitaría un método update_absolute … Esto asume un
reset previo o un método dedicado"). -/
def sync_db_stats_with_disk (s : EngineState) (userId : Nat)
    (ledgerCommitOk : Bool) : EngineState × Bool :=
  let files := s.disk.filter fun kv =>
    decide (kv.1.userId = userId ∧ kv.1.bucket = Bucket.photos ∧
      suffixLower kv.1.name ∈ validExts)
  let totalSize := (files.map fun kv => fileSize kv.2).sum
  let totalCount := files.length
  let res := update_usage s.ledger userId (Int.ofNat totalSize)
    (Int.ofNat totalCount) ledgerCommitOk
  ({ s with ledger := res.1 }, res.2)

/-! ### Ingestion pipeline (`PhotosService.upload_photo`,
`src/app/services/photos_service.py`) -/

/-- `PhotosService.upload_photo`.  Oracle arguments stand for the outcomes of
the effectful collaborators: `freshName` is the uuid4-based unique physical
name, `diskWriteOk`/`ledgerCommitOk` the disk-write and quota-commit
outcomes inside `save_photo_stream`, `thumbOk` whether PIL produced a
thumbnail, `metadataResult` what `MetadataService.extract_metadata` returned
(`none` on extraction failure or absent EXIF), `newPhotoId`/`dbPersistOk` the
id and commit outcome of `PhotoController.create_photo`.

Control flow mirrored from the source:
1. extension allow-list check, `ValidationError` before any side effect;
2. `save_photo_stream`; if it raises, the `except` block's cleanup target is
   still the *photos directory* (the pre-`try` value of `target_path`), whose
   `unlink()` raises `IsADirectoryError`, so `delete_photo_file` turns it into
   `StorageError` — disk and ledger are unchanged by that cleanup;
3. `_generate_thumbnail` (failure only logged);
4. `extract_metadata`; a `None` result crashes `metadata.model_dump()`
   (`AttributeError`), so the `except` block deletes the stored file (via
   `delete_photo_file`, which also reverses the quota delta) and raises
   `OctopusError`; the thumbnail is not removed;
5. `create_photo`; a falsy result raises `OctopusError`, handled the same
   way as step 4's failure. -/
def upload_photo (s : EngineState) (userId : Nat) (stream : Bytes)
    (filename freshName : String) (diskWriteOk ledgerCommitOk thumbOk : Bool)
    (metadataResult : Option Nat) (newPhotoId : Nat) (dbPersistOk : Bool) :
    EngineState × Except Err Nat :=
  if suffixLower filename ∈ uploadAllowedExts then
    match save_photo_stream s userId stream freshName diskWriteOk ledgerCommitOk with
    | (s1, .error _) => (s1, .error .storageError)
    | (s1, .ok target) =>
        let thumbPath : FPath := ⟨userId, .thumbnails, target.name⟩
        let s2 :=
          if thumbOk then
            { s1 with disk := aset s1.disk thumbPath (.plain (thumbnailOf stream)) }
          else s1
        match metadataResult with
        | none =>
            let cleanup := delete_photo_file s2 userId target true
            (cleanup.1, .error .octopusError)
        | some m =>
            if dbPersistOk then
              let photo : Photo :=
                { userId := userId, storagePath := target, fileName := filename,
                  isDeleted := false, deletedAt := none,
                  isEncrypted := false, encryptionSalt := none, meta := some m }
              ({ s2 with photos := aset s2.photos newPhotoId photo }, .ok newPhotoId)
            else
              let cleanup := delete_photo_file s2 userId target true
              (cleanup.1, .error .octopusError)
  else (s, .error .validationError)

/-! ### Lifecycle state machine (`PhotoController`,
`src/app/controllers/photo_controller.py`) -/

/-- `PhotoController.trash_photo`: soft delete; sets `is_deleted = True` and
`deleted_at = now()`.  Touches only the photo row. -/
def trash_photo (s : EngineState) (photoId : Nat) (now : Nat) :
    EngineState × Bool :=
  match alookup s.photos photoId with
  | none => (s, false)
  | some p =>
      let p' : Photo := { p with isDeleted := true, deletedAt := some now }
      ({ s with photos := aset s.photos photoId p' }, true)

/-- `PhotoController.restore_photo`: clears `is_deleted` and `deleted_at`.
Touches only the photo row. -/
def restore_photo (s : EngineState) (photoId : Nat) : EngineState × Bool :=
  match alookup s.photos photoId with
  | none => (s, false)
  | some p =>
      let p' : Photo := { p with isDeleted := false, deletedAt := none }
      ({ s with photos := aset s.photos photoId p' }, true)

/-- `PhotoController.delete_photo`: removes the row, `False` when absent. -/
def controller_delete_photo (photos : List (Nat × Photo)) (photoId : Nat) :
    List (Nat × Photo) × Bool :=
  match alookup photos photoId with
  | none => (photos, false)
  | some _ => (aremove photos photoId, true)

/-- `PhotosService.delete_photo` (permanent purge): fetch the record
(`ResourceNotFoundError` when absent), check requester is the owner or an
admin, delete the physical file through `delete_photo_file` (which also
applies the `-size, -1` ledger delta), best-effort unlink the thumbnail, then
delete the database row. -/
def photos_delete_photo (s : EngineState) (photoId requesterId : Nat)
    (isAdmin ledgerCommitOk : Bool) : EngineState × Except Err Bool :=
  match alookup s.photos photoId with
  | none => (s, .error .resourceNotFound)
  | some photo =>
      if photo.userId ≠ requesterId ∧ ¬isAdmin then
        (s, .error .permissionDenied)
      else
        match delete_photo_file s photo.userId photo.storagePath ledgerCommitOk with
        | (s1, .error e) => (s1, .error e)
        | (s1, .ok _) =>
            let thumbPath : FPath :=
              ⟨photo.userId, .thumbnails, photo.storagePath.name⟩
            let s2 :=
              if (alookup s1.disk thumbPath).isSome then
                { s1 with disk := aremove s1.disk thumbPath }
              else s1
            let del := controller_delete_photo s2.photos photoId
            ({ s2 with photos := del.1 }, .ok del.2)

/-! ### Vault subsystem (`VaultService`, `src/app/services/vault_service.py`) -/

/-- `VaultService._derive_key`: PBKDF2-HMAC-SHA256, 100000 iterations,
32-byte output, idealised as the injective pair (password, salt). -/
def derive_key (password : String) (salt : Nat) : String × Nat :=
  (password, salt)

/-- `VaultService._encrypt_data`: draws a fresh 16-byte salt and a fresh
12-byte nonce (the explicit `salt`/`nonce` arguments, successive entropy
draws), derives the key, and returns `(salt, nonce ‖ ciphertext_with_tag)`. -/
def encrypt_data (data : Bytes) (password : String) (salt nonce : Nat) :
    Nat × FileData :=
  (salt, .vaultBlob nonce ⟨derive_key password salt, nonce, data⟩)

/-- `VaultService._decrypt_data`: splits the blob into nonce prefix and
ciphertext, derives the key from the presented password and salt, and
decrypts; any authentication failure (wrong passphrase, wrong salt, or bytes
that are not an honestly produced blob) is surfaced as `PermissionDenied`. -/
def decrypt_data (blob : FileData) (password : String) (salt : Nat) :
    Except Err Bytes :=
  match blob with
  | .plain _ => .error .permissionDenied
  | .vaultBlob noncePrefix ct =>
      if ct.key = derive_key password salt ∧ ct.nonce = noncePrefix then
        .ok ct.data
      else .error .permissionDenied

/-- `PhotoController.mark_as_encrypted`: when the row exists it assigns
`is_encrypted`, the new vault `storage_path` and the `encryption_salt` on
the in-memory object and then calls `self._update_or_rollback()` — without
the `record` argument that `BaseController._update_or_rollback(self,
record)` requires — so that call always raises `TypeError` and nothing is
ever committed: the table is unchanged.  When the row is absent the
`if photo:` block is skipped and the method returns `None` without error. -/
def mark_as_encrypted (photos : List (Nat × Photo)) (photoId : Nat)
    (_newStoragePath : FPath) (_salt : Nat) : Except Err (List (Nat × Photo)) :=
  match alookup photos photoId with
  | none => .ok photos
  | some _ => .error .typeError

/-- `VaultService.lock_photo`.  `entropy n` is the value of the (n+1)-th
`os.urandom` call: the original's encryption draws salt `entropy 0` and nonce
`entropy 1`; when a thumbnail exists its `_encrypt_data` call draws salt
`entropy 2` and nonce `entropy 3`, and that salt is discarded
(`_, blob_t = self._encrypt_data(...)`).  Only the original's salt is handed
to `mark_as_encrypted` — which, the photo existing, always raises
`TypeError` (see its doc comment); the blanket `except Exception` wraps that
into `StorageError`, so the returned state keeps the vault blobs already
written but the record update and the plaintext unlinking never happen.
The success continuation is retained to mirror the source's text, but with
the record present it is unreachable.  Reading a path that holds a vault
blob instead of plaintext is collapsed to `StorageError` (a modelling
artifact: the claims only exercise plaintext sources). -/
def lock_photo (s : EngineState) (photoId userId : Nat)
    (vaultPassword : String) (entropy : Nat → Nat) :
    EngineState × Except Err Bool :=
  match alookup s.photos photoId with
  | none => (s, .error .permissionDenied)
  | some photo =>
      if photo.userId ≠ userId then (s, .error .permissionDenied)
      else
        let originalPath := photo.storagePath
        let thumbPath : FPath := ⟨userId, .thumbnails, originalPath.name⟩
        match alookup s.disk originalPath with
        | none => (s, .error .storageError)
        | some (.vaultBlob _ _) => (s, .error .storageError)
        | some (.plain data) =>
            let encO := encrypt_data data vaultPassword (entropy 0) (entropy 1)
            let vaultPhotoPath : FPath := ⟨userId, .vaultPhotos, vaultName photoId⟩
            let disk1 := aset s.disk vaultPhotoPath encO.2
            match alookup s.disk thumbPath with
            | some (.vaultBlob _ _) =>
                ({ s with disk := disk1 }, .error .storageError)
            | some (.plain tdata) =>
                let encT := encrypt_data tdata vaultPassword (entropy 2) (entropy 3)
                let vaultThumbPath : FPath :=
                  ⟨userId, .vaultThumbnails, vaultThumbName photoId⟩
                let disk2 := aset disk1 vaultThumbPath encT.2
                match mark_as_encrypted s.photos photoId vaultPhotoPath encO.1 with
                | .error _ => ({ s with disk := disk2 }, .error .storageError)
                | .ok photos' =>
                    let disk3 := aremove (aremove disk2 originalPath) thumbPath
                    ({ s with disk := disk3, photos := photos' }, .ok true)
            | none =>
                match mark_as_encrypted s.photos photoId vaultPhotoPath encO.1 with
                | .error _ => ({ s with disk := disk1 }, .error .storageError)
                | .ok photos' =>
                    let disk3 := aremove disk1 originalPath
                    ({ s with disk := disk3, photos := photos' }, .ok true)

/-- `VaultService.get_decrypted_stream`: `ResourceNotFound` when the record
is absent or not encrypted; `PermissionDenied` when the requester is not the
owner; resolves the blob path (`vault/thumbnails/{id}.tmb.vault` for the
thumbnail variant, the record's `storage_path` otherwise); `StorageError`
when the blob file is missing; then decrypts with the record's stored salt.
Read-only: it writes nothing, mirrored by the state-free signature.  A record
with `is_encrypted` set but no salt would crash `bytes.fromhex(None)`;
collapsed to `StorageError` (unreachable through `lock_photo`). -/
def get_decrypted_stream (s : EngineState) (photoId userId : Nat)
    (vaultPassword : String) (isThumbnail : Bool) : Except Err Bytes :=
  match alookup s.photos photoId with
  | none => .error .resourceNotFound
  | some photo =>
      if ¬photo.isEncrypted then .error .resourceNotFound
      else if photo.userId ≠ userId then .error .permissionDenied
      else
        let filePath : FPath :=
          if isThumbnail then ⟨userId, .vaultThumbnails, vaultThumbName photoId⟩
          else photo.storagePath
        match alookup s.disk filePath with
        | none => .error .storageError
        | some content =>
            match photo.encryptionSalt with
            | none => .error .storageError
            | some salt => decrypt_data content vaultPassword salt

deriving instance DecidableEq for Except

/-! ### Concrete states used by the counterexamples and witnesses -/

/-- An active plain-tier photo record of owner 7. -/
def vPhoto : Photo :=
  { userId := 7, storagePath := ⟨7, .photos, "a.jpg"⟩, fileName := "a.jpg",
    isDeleted := false, deletedAt := none, isEncrypted := false,
    encryptionSalt := none, meta := none }

/-- Owner 7 with one plain photo (bytes `[1,2,3]`) and its thumbnail
(bytes `[9,9]`) on disk. -/
def vState : EngineState :=
  { disk := [(⟨7, .photos, "a.jpg"⟩, .plain [1, 2, 3]),
             (⟨7, .thumbnails, "a.jpg"⟩, .plain [9, 9])],
    photos := [(1, vPhoto)], ledger := [] }

/-- A ledger that already agrees with the disk: one 5-byte photo on disk,
counters `(files 1, bytes 5)`. -/
def c3State : EngineState :=
  { disk := [(⟨7, .photos, "a.jpg"⟩, .plain [0, 0, 0, 0, 0])],
    photos := [], ledger := [(7, ⟨1, 5⟩)] }

/-- Owner 7 with an initialized, zeroed ledger and empty disk. -/
def zeroState : EngineState :=
  { disk := [], photos := [], ledger := [(7, ⟨0, 0⟩)] }

/-- Owner 7: one 2-byte file on disk, ledger counters `(1, 2)`. -/
def c6State : EngineState :=
  { disk := [(⟨7, .photos, "a.jpg"⟩, .plain [1, 2])],
    photos := [], ledger := [(7, ⟨1, 2⟩)] }

/-- Owner 7: photo record 1 with its 3-byte file and 1-byte thumbnail on
disk, ledger `(2, 10)`. -/
def c8State : EngineState :=
  { disk := [(⟨7, .photos, "a.jpg"⟩, .plain [1, 2, 3]),
             (⟨7, .thumbnails, "a.jpg"⟩, .plain [9])],
    photos := [(1, vPhoto)], ledger := [(7, ⟨2, 10⟩)] }

/-! ### Association-list lemmas -/

theorem alookup_aset_self {α β : Type} [DecidableEq α] (l : List (α × β)) (k : α) (v : β) :
    alookup (aset l k v) k = some v := by
  induction l with
  | nil => simp [aset, alookup]
  | cons hd t ih =>
      obtain ⟨ka, va⟩ := hd
      by_cases h : ka = k
      · simp [aset, h, alookup]
      · simp [aset, h, alookup, ih]

theorem alookup_aset_ne {α β : Type} [DecidableEq α] (l : List (α × β)) (k k' : α) (v : β)
    (hne : k' ≠ k) : alookup (aset l k v) k' = alookup l k' := by
  induction l with
  | nil => simp [aset, alookup, Ne.symm hne]
  | cons hd t ih =>
      obtain ⟨ka, va⟩ := hd
      by_cases h : ka = k
      · subst h
        simp [aset, alookup, Ne.symm hne]
      · simp [aset, h, alookup, ih]

theorem alookup_aremove_self {α β : Type} [DecidableEq α] (l : List (α × β)) (k : α) :
    alookup (aremove l k) k = none := by
  induction l with
  | nil => simp [aremove, alookup]
  | cons hd t ih =>
      obtain ⟨ka, va⟩ := hd
      by_cases h : ka = k
      · simp [aremove, h, ih]
      · simp [aremove, h, alookup, ih]

theorem alookup_aremove_ne {α β : Type} [DecidableEq α] (l : List (α × β)) (k k' : α)
    (hne : k' ≠ k) : alookup (aremove l k) k' = alookup l k' := by
  induction l with
  | nil => simp [aremove]
  | cons hd t ih =>
      obtain ⟨ka, va⟩ := hd
      by_cases h : ka = k
      · subst h
        simp [aremove, alookup, ih, Ne.symm hne]
      · simp [aremove, h, alookup, ih]

theorem alookup_aremove_none {α β : Type} [DecidableEq α] (l : List (α × β)) (k k' : α)
    (h : alookup l k = none) : alookup (aremove l k') k = none := by
  by_cases hk : k = k'
  · subst hk
    exact alookup_aremove_self l k
  · rw [alookup_aremove_ne l k' k hk]
    exact h

theorem update_usage_fail_frame (ledger : List (Nat × LedgerRec)) (userId : Nat)
    (sizeDelta filesDelta : Int) (commitOk : Bool)
    (h : (update_usage ledger userId sizeDelta filesDelta commitOk).2 = false) :
    (update_usage ledger userId sizeDelta filesDelta commitOk).1 = ledger := by
  unfold update_usage at *
  cases halo : alookup ledger userId with
  | none => simp [halo]
  | some r =>
      cases commitOk with
      | false => simp [halo]
      | true => simp [halo] at h

/-! ### Claim theorems -/

/-- C1: the claim asserts that `lock_photo` followed by
`get_decrypted_stream` with the same passphrase returns the pre-lock
plaintext for both variants.  In the source the lock can never complete:
`mark_as_encrypted` calls `_update_or_rollback()` without the record
argument it requires, the `TypeError` is wrapped by `lock_photo`'s blanket
handler into `StorageError`, and the record update and plaintext cleanup
never run.  Evaluated on a photo with a thumbnail: the lock fails with
`StorageError` after writing the vault blob, the photos table and both
plaintext files are untouched, and `get_decrypted_stream` with the correct
passphrase then fails with `ResourceNotFound` for both variants (the record
was never marked encrypted) instead of returning the content. -/
theorem c1_lock_never_succeeds :
    (lock_photo vState 1 7 "p" (fun n => n)).2 = .error .storageError ∧
    (lock_photo vState 1 7 "p" (fun n => n)).1.photos = vState.photos ∧
    alookup (lock_photo vState 1 7 "p" (fun n => n)).1.disk ⟨7, .photos, "a.jpg"⟩
      = some (.plain [1, 2, 3]) ∧
    alookup (lock_photo vState 1 7 "p" (fun n => n)).1.disk ⟨7, .thumbnails, "a.jpg"⟩
      = some (.plain [9, 9]) ∧
    alookup (lock_photo vState 1 7 "p" (fun n => n)).1.disk ⟨7, .vaultPhotos, "1.vault"⟩
      = some (.vaultBlob 1 ⟨("p", 0), 1, [1, 2, 3]⟩) ∧
    get_decrypted_stream (lock_photo vState 1 7 "p" (fun n => n)).1 1 7 "p" false
      = .error .resourceNotFound ∧
    get_decrypted_stream (lock_photo vState 1 7 "p" (fun n => n)).1 1 7 "p" true
      = .error .resourceNotFound := by
  decide

/-- C2, counterexample: on an existing zeroed ledger row, the delta
`(byte_delta = -5, file_delta = -1)` would drive both counters below zero;
the claim says `update_usage` must fail with `InvariantViolation` and leave
the counters unchanged, but the code applies it and reports success,
leaving both counters negative. -/
theorem c2_counterexample :
    (update_usage [(7, ⟨0, 0⟩)] 7 (-5) (-1) true).2 = true ∧
    alookup (update_usage [(7, ⟨0, 0⟩)] 7 (-5) (-1) true).1 7
      = some ⟨-1, -5⟩ ∧
    ((-1 : Int) < 0 ∧ (-5 : Int) < 0) := by
  decide

/-- C2, amended: `update_usage` applies the signed deltas unconditionally —
whenever the owner's row exists and the commit succeeds the stored counters
become exactly `old + delta`, even when that is negative, and the call
reports success; there is no `InvariantViolation` (the class does not exist)
and no clamping.  When the commit fails, no partial update is applied. -/
theorem c2_amended_no_negativity_check (ledger : List (Nat × LedgerRec))
    (userId : Nat) (sizeDelta filesDelta : Int) (r : LedgerRec)
    (h : alookup ledger userId = some r) :
    (update_usage ledger userId sizeDelta filesDelta true).2 = true ∧
    alookup (update_usage ledger userId sizeDelta filesDelta true).1 userId
      = some { countFiles := r.countFiles + filesDelta,
               storageBytesSize := r.storageBytesSize + sizeDelta } ∧
    (update_usage ledger userId sizeDelta filesDelta false).1 = ledger := by
  refine ⟨?_, ?_, ?_⟩
  · simp [update_usage, h]
  · simp [update_usage, h, alookup_aset_self]
  · simp [update_usage, h]

/-- C2, witness for the amended theorem at a concrete negative-going delta. -/
theorem c2_amended_witness :
    alookup [(7, (⟨0, 0⟩ : LedgerRec))] 7 = some ⟨0, 0⟩ ∧
    ((update_usage [(7, (⟨0, 0⟩ : LedgerRec))] 7 (-5) (-1) true).2 = true ∧
     alookup (update_usage [(7, (⟨0, 0⟩ : LedgerRec))] 7 (-5) (-1) true).1 7
       = some { countFiles := (0 : Int) + (-1),
                storageBytesSize := (0 : Int) + (-5) } ∧
     (update_usage [(7, (⟨0, 0⟩ : LedgerRec))] 7 (-5) (-1) false).1
       = [(7, ⟨0, 0⟩)]) :=
  ⟨by decide, c2_amended_no_negativity_check [(7, ⟨0, 0⟩)] 7 (-5) (-1) ⟨0, 0⟩ (by decide)⟩

/-- C3: the claim says `sync_db_stats_with_disk` OVERWRITES the counters
with the scanned totals, making a second run idempotent.  Evaluated on a
ledger `(files 1, bytes 5)` that already matches the disk (one 5-byte
`a.jpg`): the first run yields `(2, 10)` — the scanned totals were applied
as a delta through `update_usage`, not written absolutely — and a second run
with no intervening writes yields `(3, 15)`, not the first run's result.
The function's own comment concedes the missing absolute update
("Esto asume un reset previo o un método dedicado"). -/
theorem c3_sync_applies_scan_as_delta :
    alookup (sync_db_stats_with_disk c3State 7 true).1.ledger 7
      = some ⟨2, 10⟩ ∧
    alookup (sync_db_stats_with_disk
        (sync_db_stats_with_disk c3State 7 true).1 7 true).1.ledger 7
      = some ⟨3, 15⟩ ∧
    (⟨3, 15⟩ : LedgerRec) ≠ ⟨2, 10⟩ := by
  decide

/-- C4, counterexample: an ingest whose record persistence fails
(`dbPersistOk = false`) after a thumbnail was generated deletes the
plain-photos file but leaves the thumbnail on disk, with no Media Record
referencing it (the photos table is empty) — contradicting the claim that
the pipeline deletes "any thumbnail generated in step 4" and leaves no
unreferenced file in the thumbnails bucket. -/
theorem c4_counterexample_thumbnail_orphan :
    (upload_photo zeroState 7 [1, 2, 3] "a.jpg" "u1.jpg" true true true
        (some 0) 1 false).2 = .error .octopusError ∧
    (upload_photo zeroState 7 [1, 2, 3] "a.jpg" "u1.jpg" true true true
        (some 0) 1 false).1.photos = [] ∧
    alookup (upload_photo zeroState 7 [1, 2, 3] "a.jpg" "u1.jpg" true true true
        (some 0) 1 false).1.disk ⟨7, .thumbnails, "u1.jpg"⟩
      = some (.plain [1, 2, 3]) := by
  decide

/-- C6, counterexample: with the file present but the ledger commit failing,
`delete_photo_file` unlinks the file, leaves the ledger untouched (disk and
ledger now inconsistent), and still returns success — contradicting the
claim that the operation must not report success in that case. -/
theorem c6_counterexample :
    delete_photo_file c6State 7 ⟨7, .photos, "a.jpg"⟩ false
      = ({ disk := [], photos := [], ledger := [(7, ⟨1, 2⟩)] }, .ok true) := by
  decide

/-- C7: the claim says ingestion completes successfully when the metadata
extractor returns nothing.  Evaluated on an upload whose
`extract_metadata` outcome is `None` (no EXIF tags, or extraction failure —
`MetadataService.extract_metadata` returns `None` in both cases): the upload
fails with an error (`metadata.model_dump()` on `None` raises
`AttributeError`, wrapped into `OctopusError`), and the already-written file
is deleted again — the whole ingest is aborted, not completed with unset
fields.  The code around it shows tolerance was the intent
(`create_photo`'s comment: "asegura que no sobreescribamos con Nones si no
hay EXIF"), so this is a defect of the code, not of the claim. -/
theorem c7_missing_metadata_aborts_upload :
    (upload_photo zeroState 7 [1, 2] "b.png" "f.png" true true false none 1 true).2
      = .error .octopusError ∧
    (upload_photo zeroState 7 [1, 2] "b.png" "f.png" true true false none 1 true).1
      = zeroState := by
  decide

/-- C9: for a photo with a record, `trash_photo` followed by `restore_photo`
succeeds, leaves the quota ledger exactly as it was, performs no disk I/O
(the whole filesystem is unchanged), and the record afterwards has its
original storage path with the soft-delete flag and timestamp cleared. -/
theorem c9_trash_restore_frame (s : EngineState) (photoId now : Nat) (p : Photo)
    (hp : alookup s.photos photoId = some p) :
    (trash_photo s photoId now).2 = true ∧
    (restore_photo (trash_photo s photoId now).1 photoId).2 = true ∧
    (restore_photo (trash_photo s photoId now).1 photoId).1.ledger = s.ledger ∧
    (restore_photo (trash_photo s photoId now).1 photoId).1.disk = s.disk ∧
    alookup (restore_photo (trash_photo s photoId now).1 photoId).1.photos photoId
      = some { p with isDeleted := false, deletedAt := none } := by
  simp only [trash_photo, hp]
  simp [restore_photo, alookup_aset_self]

/-- C9, witness: owner 7's photo 1 in `vState`, trashed at time 99 and
restored. -/
theorem c9_trash_restore_frame_witness :
    alookup vState.photos 1 = some vPhoto ∧
    ((trash_photo vState 1 99).2 = true ∧
     (restore_photo (trash_photo vState 1 99).1 1).2 = true ∧
     (restore_photo (trash_photo vState 1 99).1 1).1.ledger = vState.ledger ∧
     (restore_photo (trash_photo vState 1 99).1 1).1.disk = vState.disk ∧
     alookup (restore_photo (trash_photo vState 1 99).1 1).1.photos 1
       = some { vPhoto with isDeleted := false, deletedAt := none }) :=
  ⟨by decide, c9_trash_restore_frame vState 1 99 vPhoto (by decide)⟩

/-- C5: a successful ingest by an owner whose ledger row holds `r` leaves
the row at exactly `(files r.countFiles + 1, bytes r.storageBytesSize +
length of the written stream)` — the written file's `stat().st_size` is the
stream length. -/
theorem c5_ingest_ledger_delta (s : EngineState) (userId : Nat) (stream : Bytes)
    (filename freshName : String) (thumbOk : Bool) (metaVal newPhotoId : Nat)
    (r : LedgerRec)
    (hext : suffixLower filename ∈ uploadAllowedExts)
    (hled : alookup s.ledger userId = some r) :
    (upload_photo s userId stream filename freshName true true thumbOk
        (some metaVal) newPhotoId true).2 = .ok newPhotoId ∧
    alookup (upload_photo s userId stream filename freshName true true thumbOk
        (some metaVal) newPhotoId true).1.ledger userId
      = some { countFiles := r.countFiles + 1,
               storageBytesSize := r.storageBytesSize + Int.ofNat stream.length } := by
  simp only [upload_photo, hext, if_true, save_photo_stream, register_file_upload,
    update_usage, hled]
  cases thumbOk <;> simp [alookup_aset_self]

/-- C5, witness: a 3-byte upload into the zeroed ledger of owner 7. -/
theorem c5_ingest_ledger_delta_witness :
    suffixLower "a.jpg" ∈ uploadAllowedExts ∧
    alookup zeroState.ledger 7 = some ⟨0, 0⟩ ∧
    ((upload_photo zeroState 7 [1, 2, 3] "a.jpg" "u1.jpg" true true true
        (some 0) 1 true).2 = .ok 1 ∧
     alookup (upload_photo zeroState 7 [1, 2, 3] "a.jpg" "u1.jpg" true true true
        (some 0) 1 true).1.ledger 7
       = some { countFiles := (0 : Int) + 1,
                storageBytesSize := (0 : Int) + Int.ofNat ([1, 2, 3] : Bytes).length }) :=
  ⟨by decide, by decide,
   c5_ingest_ledger_delta zeroState 7 [1, 2, 3] "a.jpg" "u1.jpg" true 0 1 ⟨0, 0⟩
     (by decide) (by decide)⟩

/-- C6, amended: when the physical file exists but the ledger decrement
fails (failed commit, or no ledger row — both make `update_usage` report
failure), `delete_photo_file` unlinks the file, leaves the ledger exactly as
it was — disk and ledger are now inconsistent — and still reports success
(`True`); the failure is only logged, not propagated. -/
theorem c6_amended_swallows_ledger_failure (s : EngineState) (userId : Nat)
    (filePath : FPath) (c : FileData) (ck : Bool)
    (hd : alookup s.disk filePath = some c)
    (hfail : (register_file_deletion s.ledger userId (fileSize c) ck).2 = false) :
    (delete_photo_file s userId filePath ck).2 = .ok true ∧
    alookup (delete_photo_file s userId filePath ck).1.disk filePath = none ∧
    (delete_photo_file s userId filePath ck).1.ledger = s.ledger := by
  have hframe :=
    update_usage_fail_frame s.ledger userId (-(Int.ofNat (fileSize c))) (-1) ck
      (by simpa [register_file_deletion] using hfail)
  simp only [delete_photo_file, hd, register_file_deletion]
  refine ⟨by trivial, alookup_aremove_self s.disk filePath, hframe⟩

/-- C6, witness for the amended theorem: `c6State` with a failing ledger
commit. -/
theorem c6_amended_witness :
    alookup c6State.disk ⟨7, .photos, "a.jpg"⟩ = some (.plain [1, 2]) ∧
    (register_file_deletion c6State.ledger 7 (fileSize (.plain [1, 2])) false).2 = false ∧
    ((delete_photo_file c6State 7 ⟨7, .photos, "a.jpg"⟩ false).2 = .ok true ∧
     alookup (delete_photo_file c6State 7 ⟨7, .photos, "a.jpg"⟩ false).1.disk
       ⟨7, .photos, "a.jpg"⟩ = none ∧
     (delete_photo_file c6State 7 ⟨7, .photos, "a.jpg"⟩ false).1.ledger
       = c6State.ledger) :=
  ⟨by decide, by decide,
   c6_amended_swallows_ledger_failure c6State 7 ⟨7, .photos, "a.jpg"⟩
     (.plain [1, 2]) false (by decide) (by decide)⟩

/-- C4, amended: every ingest failure after the disk write begins —
disk-write error, quota-ledger commit failure, metadata crash
(`extract_metadata` returning `None`), or record-persistence failure —
raises an error (`StorageError` or `OctopusError`), leaves no file in the
owner's plain-photos bucket (the written file is deleted again and its
quota delta, when it had been applied, is reversed — the ledger row reads
its original value), and leaves the photos table unchanged; but a thumbnail
generated in step 4 is NOT deleted: whenever the run got past the disk
write and the quota update with `thumbOk`, the thumbnail remains in the
thumbnails bucket with no Media Record referencing it. -/
theorem c4_amended_cleanup_misses_thumbnail (s : EngineState) (userId : Nat)
    (stream : Bytes) (filename freshName : String)
    (diskWriteOk ledgerCommitOk thumbOk dbPersistOk : Bool)
    (metadataResult : Option Nat) (newPhotoId : Nat) (r : LedgerRec)
    (hext : suffixLower filename ∈ uploadAllowedExts)
    (hled : alookup s.ledger userId = some r)
    (hfresh : alookup s.disk ⟨userId, .photos, freshName⟩ = none)
    (hfail : (diskWriteOk && ledgerCommitOk && metadataResult.isSome
      && dbPersistOk) = false) :
    ((upload_photo s userId stream filename freshName diskWriteOk ledgerCommitOk
        thumbOk metadataResult newPhotoId dbPersistOk).2 = .error .storageError ∨
     (upload_photo s userId stream filename freshName diskWriteOk ledgerCommitOk
        thumbOk metadataResult newPhotoId dbPersistOk).2 = .error .octopusError) ∧
    alookup (upload_photo s userId stream filename freshName diskWriteOk
        ledgerCommitOk thumbOk metadataResult newPhotoId dbPersistOk).1.disk
      ⟨userId, .photos, freshName⟩ = none ∧
    alookup (upload_photo s userId stream filename freshName diskWriteOk
        ledgerCommitOk thumbOk metadataResult newPhotoId dbPersistOk).1.ledger
      userId = some r ∧
    (upload_photo s userId stream filename freshName diskWriteOk ledgerCommitOk
        thumbOk metadataResult newPhotoId dbPersistOk).1.photos = s.photos ∧
    alookup (upload_photo s userId stream filename freshName diskWriteOk
        ledgerCommitOk thumbOk metadataResult newPhotoId dbPersistOk).1.disk
      ⟨userId, .thumbnails, freshName⟩
      = (if diskWriteOk && ledgerCommitOk && thumbOk then
           some (.plain (thumbnailOf stream))
         else alookup s.disk ⟨userId, .thumbnails, freshName⟩) := by
  have hne : (⟨userId, Bucket.thumbnails, freshName⟩ : FPath)
      ≠ ⟨userId, Bucket.photos, freshName⟩ := by
    simp
  cases diskWriteOk with
  | false =>
      simp [upload_photo, hext, save_photo_stream, hfresh, hled]
  | true =>
      cases ledgerCommitOk with
      | false =>
          simp [upload_photo, hext, save_photo_stream, register_file_upload,
            update_usage, hled, alookup_aremove_self,
            alookup_aremove_ne _ _ _ hne, alookup_aset_ne _ _ _ _ hne]
      | true =>
          cases metadataResult with
          | none =>
              cases thumbOk with
              | false =>
                  simp [upload_photo, hext, save_photo_stream,
                    register_file_upload, update_usage, hled, delete_photo_file,
                    register_file_deletion, alookup_aset_self,
                    alookup_aset_ne _ _ _ _ hne, alookup_aremove_self,
                    alookup_aremove_ne _ _ _ hne, fileSize,
                    Int.add_neg_cancel_right]
              | true =>
                  simp [upload_photo, hext, save_photo_stream,
                    register_file_upload, update_usage, hled, delete_photo_file,
                    register_file_deletion, alookup_aset_self,
                    alookup_aset_ne _ _ _ _ hne,
                    alookup_aset_ne _ _ _ _ (Ne.symm hne), alookup_aremove_self,
                    alookup_aremove_ne _ _ _ hne,
                    alookup_aremove_ne _ _ _ (Ne.symm hne), fileSize,
                    Int.add_neg_cancel_right]
          | some m =>
              cases dbPersistOk with
              | true => simp at hfail
              | false =>
                  cases thumbOk with
                  | false =>
                      simp [upload_photo, hext, save_photo_stream,
                        register_file_upload, update_usage, hled,
                        delete_photo_file, register_file_deletion,
                        alookup_aset_self, alookup_aset_ne _ _ _ _ hne,
                        alookup_aremove_self, alookup_aremove_ne _ _ _ hne,
                        fileSize, Int.add_neg_cancel_right]
                  | true =>
                      simp [upload_photo, hext, save_photo_stream,
                        register_file_upload, update_usage, hled,
                        delete_photo_file, register_file_deletion,
                        alookup_aset_self, alookup_aset_ne _ _ _ _ hne,
                        alookup_aset_ne _ _ _ _ (Ne.symm hne),
                        alookup_aremove_self, alookup_aremove_ne _ _ _ hne,
                        alookup_aremove_ne _ _ _ (Ne.symm hne), fileSize,
                        Int.add_neg_cancel_right]

/-- C4, witness for the amended theorem: owner 7, zeroed ledger, 3-byte
stream, thumbnail generated, record persistence failing (one of the failure
modes the theorem quantifies over). -/
theorem c4_amended_witness :
    suffixLower "a.jpg" ∈ uploadAllowedExts ∧
    alookup zeroState.ledger 7 = some ⟨0, 0⟩ ∧
    alookup zeroState.disk ⟨7, .photos, "u1.jpg"⟩ = none ∧
    (true && true && (some 0 : Option Nat).isSome && false) = false ∧
    (((upload_photo zeroState 7 [1, 2, 3] "a.jpg" "u1.jpg" true true true
        (some 0) 1 false).2 = .error .storageError ∨
      (upload_photo zeroState 7 [1, 2, 3] "a.jpg" "u1.jpg" true true true
        (some 0) 1 false).2 = .error .octopusError) ∧
     alookup (upload_photo zeroState 7 [1, 2, 3] "a.jpg" "u1.jpg" true true true
        (some 0) 1 false).1.disk ⟨7, .photos, "u1.jpg"⟩ = none ∧
     alookup (upload_photo zeroState 7 [1, 2, 3] "a.jpg" "u1.jpg" true true true
        (some 0) 1 false).1.ledger 7 = some ⟨0, 0⟩ ∧
     (upload_photo zeroState 7 [1, 2, 3] "a.jpg" "u1.jpg" true true true
        (some 0) 1 false).1.photos = zeroState.photos ∧
     alookup (upload_photo zeroState 7 [1, 2, 3] "a.jpg" "u1.jpg" true true true
        (some 0) 1 false).1.disk ⟨7, .thumbnails, "u1.jpg"⟩
       = (if true && true && true then some (.plain (thumbnailOf [1, 2, 3]))
          else alookup zeroState.disk ⟨7, .thumbnails, "u1.jpg"⟩)) :=
  ⟨by decide, by decide, by decide, by decide,
   c4_amended_cleanup_misses_thumbnail zeroState 7 [1, 2, 3] "a.jpg" "u1.jpg"
     true true true false (some 0) 1 ⟨0, 0⟩ (by decide) (by decide) (by decide)
     (by decide)⟩

/-- C8: purging (owner-requested `delete_photo`) a media item whose physical
file exists, with an initialized ledger, removes the physical file, removes
its thumbnail when present (the thumbnail lookup is `none` afterwards in
either case), decrements the ledger by exactly the file's size and by one
file, and removes the record; a second purge of the same id then returns
`ResourceNotFound` and changes nothing (it returns the state unchanged). -/
theorem c8_purge_exact (s : EngineState) (photoId : Nat) (p : Photo)
    (c : FileData) (r : LedgerRec)
    (hp : alookup s.photos photoId = some p)
    (hf : alookup s.disk p.storagePath = some c)
    (hl : alookup s.ledger p.userId = some r) :
    (photos_delete_photo s photoId p.userId false true).2 = .ok true ∧
    alookup (photos_delete_photo s photoId p.userId false true).1.disk
      p.storagePath = none ∧
    alookup (photos_delete_photo s photoId p.userId false true).1.disk
      ⟨p.userId, .thumbnails, p.storagePath.name⟩ = none ∧
    alookup (photos_delete_photo s photoId p.userId false true).1.ledger p.userId
      = some { countFiles := r.countFiles - 1,
               storageBytesSize := r.storageBytesSize - Int.ofNat (fileSize c) } ∧
    alookup (photos_delete_photo s photoId p.userId false true).1.photos
      photoId = none ∧
    photos_delete_photo (photos_delete_photo s photoId p.userId false true).1
        photoId p.userId false true
      = ((photos_delete_photo s photoId p.userId false true).1,
         .error .resourceNotFound) := by
  by_cases ht : (alookup (aremove s.disk p.storagePath)
      (⟨p.userId, .thumbnails, p.storagePath.name⟩ : FPath)).isSome
  · simp [photos_delete_photo, hp, delete_photo_file, hf, register_file_deletion,
      update_usage, hl, controller_delete_photo, ht, alookup_aset_self,
      alookup_aremove_self, alookup_aremove_none, Int.sub_eq_add_neg]
  · simp only [Option.not_isSome_iff_eq_none] at ht
    simp [photos_delete_photo, hp, delete_photo_file, hf, register_file_deletion,
      update_usage, hl, controller_delete_photo, ht, alookup_aset_self,
      alookup_aremove_self, alookup_aremove_none, Int.sub_eq_add_neg]

/-- C8, witness: owner 7 purging photo 1 of `c8State` (3-byte file, 1-byte
thumbnail, ledger `(2, 10)`). -/
theorem c8_purge_exact_witness :
    alookup c8State.photos 1 = some vPhoto ∧
    alookup c8State.disk vPhoto.storagePath = some (.plain [1, 2, 3]) ∧
    alookup c8State.ledger vPhoto.userId = some ⟨2, 10⟩ ∧
    ((photos_delete_photo c8State 1 vPhoto.userId false true).2 = .ok true ∧
     alookup (photos_delete_photo c8State 1 vPhoto.userId false true).1.disk
       vPhoto.storagePath = none ∧
     alookup (photos_delete_photo c8State 1 vPhoto.userId false true).1.disk
       ⟨vPhoto.userId, .thumbnails, vPhoto.storagePath.name⟩ = none ∧
     alookup (photos_delete_photo c8State 1 vPhoto.userId false true).1.ledger
       vPhoto.userId
       = some { countFiles := (2 : Int) - 1,
                storageBytesSize := (10 : Int) - Int.ofNat (fileSize (.plain [1, 2, 3])) } ∧
     alookup (photos_delete_photo c8State 1 vPhoto.userId false true).1.photos 1
       = none ∧
     photos_delete_photo (photos_delete_photo c8State 1 vPhoto.userId false true).1
         1 vPhoto.userId false true
       = ((photos_delete_photo c8State 1 vPhoto.userId false true).1,
          .error .resourceNotFound)) :=
  ⟨by decide, by decide, by decide,
   c8_purge_exact c8State 1 vPhoto (.plain [1, 2, 3]) ⟨2, 10⟩
     (by decide) (by decide) (by decide)⟩

/-- C10: evaluated on a photo with a thumbnail, locked with the identity
entropy stream.  The true parts of the claim: the thumbnail is encrypted
under its own fresh `os.urandom` draw (salt 2, the blob's key component),
distinct from the original's draw (salt 0), and that salt is discarded — it
is persisted nowhere.  The false part: no salt at all is stored on the
Media Record — `mark_as_encrypted` raises `TypeError`
(`_update_or_rollback()` is called without its required record argument)
before any commit, `lock_photo` fails with `StorageError`, and the record
keeps `encryption_salt` unset, so not even the original's salt is available
to later decryption. -/
theorem c10_no_salt_ever_persisted :
    (lock_photo vState 1 7 "p" (fun n => n)).2 = .error .storageError ∧
    alookup (lock_photo vState 1 7 "p" (fun n => n)).1.disk
        ⟨7, .vaultThumbnails, "1.tmb.vault"⟩
      = some (.vaultBlob 3 ⟨("p", 2), 3, [9, 9]⟩) ∧
    (2 : Nat) ≠ 0 ∧
    alookup (lock_photo vState 1 7 "p" (fun n => n)).1.photos 1 = some vPhoto ∧
    vPhoto.encryptionSalt = none := by
  decide
